import Mathlib

/-!
Verification of the retrieval-and-tool-orchestration core of a medical
chat assistant (agent.py) against its natural-language specification.

The embedding mirrors the source code:
* the Redis-backed response cache (`check_cache` / `store_in_cache`) is modelled
  as an association list from key to (value, expiry time); the external
  `hashlib.sha256` digest is abstracted as a `String -> String` parameter that
  the code applies to the raw question text;
* the patient snapshot dict is a structure of optional fields; the agent holds
  `Option PatientSnapshot` (it is `none` until `set_patient_data` is called);
* tool handlers are fallible (`Except String String`): a handler applied while
  the snapshot is `none` reproduces the Python `TypeError` (membership test on
  `None`) or `AttributeError` (attribute access on `None`);
* the faiss `IndexFlatL2` search is modelled by exact squared-L2 nearest
  neighbours over the stored embedding rows, padded with label `-1` when the
  index holds fewer than `k` rows (documented faiss behaviour);
* Python list indexing (`chunks[i]`) is modelled with negative-index
  resolution and `IndexError`;
* the chunker models `insurance_info.split("\x5cn\x5cn")` followed by
  `str.strip()` and dropping falsy (empty) sections;
* `MistralAgent.run` is modelled as a pure function of an environment of
  external oracles (hash, embedding, the two chat completions); it returns the
  answer, the successor agent state, the successor cache, and the trace of
  external calls made, so that claims about which calls happen (and in which
  order) are statements about the returned trace.
-/

/-! ### Response cache (module-level Redis handle, agent.py lines 31-47) -/

/-- CacheState: the Redis store, as an association list key -> (value, expiry).
`cacheSet` prepends, `cacheGetAt` finds the most recent write, so a later
`set` on the same key overwrites an earlier one. -/
def CacheState : Type := List (String × String × Nat)

/-- Redis SET with expiry timestamp (absolute time the entry dies). -/
def cacheSet (c : CacheState) (key value : String) (expiry : Nat) : CacheState :=
  (key, value, expiry) :: c

/-- Redis GET at absolute time `t`: the entry is visible while `t < expiry`. -/
def cacheGetAt (c : CacheState) (t : Nat) (key : String) : Option String :=
  match (c : List (String × String × Nat)).find? (fun e => e.1 == key) with
  | some e => if t < e.2.2 then some e.2.1 else none
  | none => none

/-- check_cache (agent.py 35-40): hash the raw query, GET, and return the
decoded bytes; an absent entry, or empty (falsy) cached bytes, yields `none`.
The external sha256 digest is abstracted as the parameter `h`. -/
def check_cache (h : String → String) (c : CacheState) (t : Nat) (query : String) :
    Option String :=
  match cacheGetAt c t (h query) with
  | some v => if v = "" then none else some v
  | none => none

/-- store_in_cache (agent.py 43-47): hash the raw prompt and SET with
`ex=3600` seconds, i.e. expiry `t + 3600`. -/
def store_in_cache (h : String → String) (c : CacheState) (t : Nat)
    (prompt response : String) : CacheState :=
  cacheSet c (h prompt) response (t + 3600)

/-! ### Patient snapshot (the dict given to set_patient_data) -/

/-- Reaction: one entry of the allergies reactions list. -/
structure Reaction where
  description : Option String
  manifestations : Option (List String)
deriving DecidableEq

/-- Allergies: the optional nested allergies mapping. -/
structure Allergies where
  allergy_name : Option String
  clinical_status : Option String
  onset_date : Option String
  reactions : Option (List Reaction)
deriving DecidableEq

/-- DiagnosticReport: the optional nested diagnostic_report mapping. -/
structure DiagnosticReport where
  report_name : Option String
  status : Option String
  effective_date : Option String
  categories : Option (List String)
  providers : Option (List String)
  result_references : Option (List String)
deriving DecidableEq

/-- Conditions: the optional nested conditions mapping. -/
structure Conditions where
  condition_name : Option String
  clinical_status : Option String
  onset_date : Option String
  notes : Option (List String)
deriving DecidableEq

/-- PatientSnapshot: the flattened patient-data dict. A `none` field models an
absent key (rendered "Unknown" or a sentinel by the tools). -/
structure PatientSnapshot where
  name : Option String
  dob : Option String
  mrn : Option String
  provider : Option String
  memberId : Option String
  groupNumber : Option String
  effectiveDate : Option String
  allergies : Option Allergies
  diagnostic_report : Option DiagnosticReport
  conditions : Option Conditions
deriving DecidableEq

/-- apo: a single apostrophe character, used inside prompt text. -/
def apo : String := String.singleton (Char.ofNat 39)

/-- typeErrNone: the Python exception raised by a membership test on None. -/
def typeErrNone : String := "TypeError: argument of type NoneType is not iterable"

/-- attrErrNone: the Python exception raised by attribute access on None. -/
def attrErrNone : String := "AttributeError: NoneType object has no attribute get"

/-! ### Tool handlers (agent.py 233-340). Each takes the agent's
`patient_data` (an `Option PatientSnapshot`) plus the keyword arguments the
model supplied (which the Python code accepts as **kwargs and ignores). -/

/-- allergyBlock: the then-branch text of retrieve_allergy_info (agent.py 238-254). -/
def allergyBlock (al : Allergies) : String :=
  "Allergy Information:\nAllergy: " ++ al.allergy_name.getD "Unknown"
    ++ "\nStatus: " ++ al.clinical_status.getD "Unknown"
    ++ "\nOnset Date: " ++ al.onset_date.getD "Unknown" ++ "\n"
    ++ (match al.reactions with
        | some rs => "Reactions:\n" ++ String.join (rs.map (fun r =>
            (match r.description with
             | some d => "  - " ++ d ++ "\n"
             | none => "")
            ++ (match r.manifestations with
                | some ms => "    Manifestations: " ++ String.intercalate ", " ms ++ "\n"
                | none => "")))
        | none => "")

/-- retrieve_allergy_info (agent.py 233-256): on a loaded snapshot with no
allergies key, returns the fixed sentinel; with the key, the formatted block;
on an unloaded snapshot (None), the membership test raises. -/
def retrieve_allergy_info (pd : Option PatientSnapshot)
    (_kwargs : List (String × String)) : Except String String :=
  match pd with
  | none => .error typeErrNone
  | some d =>
    match d.allergies with
    | some al => .ok (allergyBlock al)
    | none => .ok "No allergy information available for this patient."

/-- diagnosticBlock: the then-branch text of retrieve_diagnostic_report_info
(agent.py 263-283). -/
def diagnosticBlock (dr : DiagnosticReport) : String :=
  "Diagnostic Report Information:\nReport Name: " ++ dr.report_name.getD "Unknown"
    ++ "\nStatus: " ++ dr.status.getD "Unknown"
    ++ "\nDate: " ++ dr.effective_date.getD "Unknown" ++ "\n"
    ++ (match dr.categories with
        | some cs => "Categories: " ++ String.intercalate ", " cs ++ "\n"
        | none => "")
    ++ (match dr.providers with
        | some ps => "Providers: " ++ String.intercalate ", " ps ++ "\n"
        | none => "")
    ++ (match dr.result_references with
        | some rs => "Results:\n" ++ String.join (rs.map (fun r => "  - " ++ r ++ "\n"))
        | none => "")

/-- retrieve_diagnostic_report_info (agent.py 258-285). -/
def retrieve_diagnostic_report_info (pd : Option PatientSnapshot)
    (_kwargs : List (String × String)) : Except String String :=
  match pd with
  | none => .error typeErrNone
  | some d =>
    match d.diagnostic_report with
    | some dr => .ok (diagnosticBlock dr)
    | none => .ok "No diagnostic report information available for this patient."

/-- conditionBlock: the then-branch text of retrieve_condition_info (agent.py 292-306). -/
def conditionBlock (co : Conditions) : String :=
  "Medical Condition Information:\nCondition: " ++ co.condition_name.getD "Unknown"
    ++ "\nStatus: " ++ co.clinical_status.getD "Unknown"
    ++ "\nOnset Date: " ++ co.onset_date.getD "Unknown" ++ "\n"
    ++ (match co.notes with
        | some ns => "Clinical Notes:\n" ++ String.join (ns.map (fun n => "  " ++ n ++ "\n"))
        | none => "")

/-- retrieve_condition_info (agent.py 287-308). -/
def retrieve_condition_info (pd : Option PatientSnapshot)
    (_kwargs : List (String × String)) : Except String String :=
  match pd with
  | none => .error typeErrNone
  | some d =>
    match d.conditions with
    | some co => .ok (conditionBlock co)
    | none => .ok "No condition information available for this patient."

/-- retrieve_relevant_info_for_ICD_code (agent.py 310-323): calls the three
other summaries (with no arguments) and concatenates them; with an unloaded
snapshot the first inner call raises and the exception propagates. -/
def retrieve_relevant_info_for_ICD_code (pd : Option PatientSnapshot)
    (_kwargs : List (String × String)) : Except String String :=
  match retrieve_condition_info pd [] with
  | .error e => .error e
  | .ok c =>
    match retrieve_diagnostic_report_info pd [] with
    | .error e => .error e
    | .ok d =>
      match retrieve_allergy_info pd [] with
      | .error e => .error e
      | .ok a =>
        .ok ("Retrieved information for ICD-10 code generation:\nCondition Info: " ++ c
          ++ "\nDiagnostic Report Info: " ++ d ++ "\nAllergy Info: " ++ a ++ "\n")

/-- patient_info_block: the f-string of retrieve_patient_info (agent.py 331-340);
each source line carries both an escaped and a literal newline. -/
def patient_info_block (d : PatientSnapshot) : String :=
  "\n            Name: " ++ d.name.getD "Unknown"
    ++ "\n\n            Date of Birth: " ++ d.dob.getD "Unknown"
    ++ "\n\n            Medical Record Number: " ++ d.mrn.getD "Unknown"
    ++ "\n\n            Insurance Provider: " ++ d.provider.getD "Unknown"
    ++ "\n\n            Member ID: " ++ d.memberId.getD "Unknown"
    ++ "\n\n            Group Number: " ++ d.groupNumber.getD "Unknown"
    ++ "\n\n            Effective Date: " ++ d.effectiveDate.getD "Unknown"
    ++ "\n\n\n            Use this information to answer the user" ++ apo
    ++ "s question if relevant.\n        "

/-- retrieve_patient_info (agent.py 325-340): attribute access `.get` on an
unloaded (None) snapshot raises AttributeError. -/
def retrieve_patient_info (pd : Option PatientSnapshot)
    (_kwargs : List (String × String)) : Except String String :=
  match pd with
  | none => .error attrErrNone
  | some d => .ok (patient_info_block d)

/-- names_to_functions (agent.py 140-146): the closed tool-name dispatch map.
A name outside the five registered ones is a map miss (`none`), which in the
Python dict lookup is a KeyError. -/
def names_to_functions (pd : Option PatientSnapshot) :
    String → Option (List (String × String) → Except String String) :=
  fun nm =>
    if nm = "retrieve_allergy_info" then some (retrieve_allergy_info pd)
    else if nm = "retrieve_diagnostic_report_info" then some (retrieve_diagnostic_report_info pd)
    else if nm = "retrieve_condition_info" then some (retrieve_condition_info pd)
    else if nm = "retrieve_relevant_info_for_ICD_code" then some (retrieve_relevant_info_for_ICD_code pd)
    else if nm = "retrieve_patient_info" then some (retrieve_patient_info pd)
    else none

/-! ### Messages, tool calls, and the tool-execution loop (agent.py 356-390) -/

/-- ToolCall: one requested tool invocation from the model; `args` is the
result of parsing `function.arguments` (malformed or empty JSON has already
degraded to the empty dict, agent.py 374-377). -/
structure ToolCall where
  id : String
  name : String
  args : List (String × String)
deriving DecidableEq

/-- Message: one transcript entry of the chat protocol. -/
inductive Message where
  | system (content : String)
  | user (content : String)
  | assistant (content : String) (toolCalls : List ToolCall)
  | tool (name : String) (content : String) (tool_call_id : String)
deriving DecidableEq

/-- ModelResponse: what the first (tool-enabled) chat completion returns:
an assistant message with content and a (possibly empty) tool-call list. -/
structure ModelResponse where
  toolCalls : List ToolCall
  content : String
deriving DecidableEq

/-- execToolCalls: the loop body of run_mistral_tools (agent.py 370-388):
resolve each call's name in the dispatch map (a miss is the Python KeyError),
run the handler, and emit a tool-result message tagged with the originating
call id, in the order the calls were returned. -/
def execToolCalls
    (ntf : String → Option (List (String × String) → Except String String)) :
    List ToolCall → Except String (List Message)
  | [] => .ok []
  | tc :: rest =>
    match ntf tc.name with
    | none => .error ("KeyError: " ++ tc.name)
    | some f =>
      match f tc.args with
      | .error e => .error e
      | .ok result =>
        match execToolCalls ntf rest with
        | .error e => .error e
        | .ok ms => .ok (Message.tool tc.name result tc.id :: ms)

/-- run_mistral_tools (agent.py 356-390), after the first completion has
returned `resp`: if the response carries tool calls, append the assistant
tool-call message and then the tool results; otherwise return the transcript
unchanged. An unresolved tool name or a raising handler propagates as an
error (nothing catches it in the source). -/
def run_mistral_tools (pd : Option PatientSnapshot) (messages : List Message)
    (resp : ModelResponse) : Except String (List Message) :=
  if resp.toolCalls.isEmpty then .ok messages
  else
    match execToolCalls (names_to_functions pd) resp.toolCalls with
    | .error e => .error e
    | .ok trs => .ok (messages ++ [Message.assistant resp.content resp.toolCalls] ++ trs)

/-! ### Prompt assembly (agent.py 342-354) -/

/-- SYSTEM_PROMPT (agent.py 51-52). -/
def SYSTEM_PROMPT : String :=
  "I am a specialized medical assistant with access to patient health records. I can help you with:\nHow may I assist you with supporting your workflow as a doctor today?"

/-- lastN: the Python slice `l[-n:]`. -/
def lastN (n : Nat) (l : List String) : List String := l.drop (l.length - n)

/-- insuranceSection: `retrieved_chunks if retrieved_chunks else "No insurance
information available"` — a missing or empty (falsy) string degrades to the
sentinel. -/
def insuranceSection : Option String → String
  | some s => if s = "" then "No insurance information available" else s
  | none => "No insurance information available"

/-- prevSection: `", ".join(self.previous_messages[-3:]) if
self.previous_messages else "No previous messages"`. -/
def prevSection (previous_messages : List String) : String :=
  if previous_messages.isEmpty then "No previous messages"
  else String.intercalate ", " (lastN 3 previous_messages)

/-- generate_prompt (agent.py 342-354): the grounding block, built from the
patient summary (which raises if no snapshot is loaded), the insurance
section, the previous-messages section, the query, and the Answer cue. -/
def generate_prompt (pd : Option PatientSnapshot) (previous_messages : List String)
    (user_message : String) (retrieved_chunks : Option String) : Except String String :=
  match retrieve_patient_info pd [] with
  | .error e => .error e
  | .ok pinfo =>
    .ok ("\n            Context information is below.\n            ---------------------\n            Patient Information: "
      ++ pinfo
      ++ "\n            Insurance Information: " ++ insuranceSection retrieved_chunks
      ++ "\n            Previous Messages: " ++ prevSection previous_messages
      ++ "\n            ---------------------\n            Given the context information, answer the query.\n            Query: "
      ++ user_message ++ "\n            Answer:\n        ")

/-! ### Vector index search (faiss IndexFlatL2, agent.py 177-180 and 406-416) -/

/-- sqDist: squared Euclidean distance between two embedding rows. -/
def sqDist (a b : List Int) : Int :=
  ((a.zip b).map (fun p => (p.1 - p.2) * (p.1 - p.2))).sum

/-- distLe: the comparison ordering index `i` before index `j` when `i` is
strictly closer to the query, with ties broken by index. -/
def distLe (q : List Int) (emb : List (List Int)) (i j : Nat) : Bool :=
  let di := sqDist (emb.getD i []) q
  let dj := sqDist (emb.getD j []) q
  decide (di < dj ∨ (di = dj ∧ i ≤ j))

/-- insertBy: insertion step of an insertion sort. -/
def insertBy (le : Nat → Nat → Bool) (x : Nat) : List Nat → List Nat
  | [] => [x]
  | y :: ys => if le x y then x :: y :: ys else y :: insertBy le x ys

/-- sortNatBy: insertion sort of index lists. -/
def sortNatBy (le : Nat → Nat → Bool) : List Nat → List Nat
  | [] => []
  | x :: xs => insertBy le x (sortNatBy le xs)

/-- searchIndex: `index.search(q, k)` of a flat L2 faiss index holding the
rows of `emb`: the `k` nearest row labels in ascending distance order; when
the index holds fewer than `k` rows, faiss pads the label array with -1. -/
def searchIndex (emb : List (List Int)) (q : List Int) (k : Nat) : List Int :=
  (((sortNatBy (distLe q emb) (List.range emb.length)).take k).map (fun n => Int.ofNat n))
    ++ List.replicate (k - ((sortNatBy (distLe q emb) (List.range emb.length)).take k).length) (-1)

/-- pyGet: Python list indexing `l[i]`: a negative index counts from the end;
an index out of range after that adjustment raises IndexError. -/
def pyGet (l : List String) (i : Int) : Except String String :=
  let j : Int := if i < 0 then i + l.length else i
  if 0 ≤ j ∧ j < (l.length : Int) then .ok (l.getD j.toNat "")
  else .error "IndexError: list index out of range"

/-- mapPyGet: the list comprehension `[self.chunks[i] for i in I[0]]`. -/
def mapPyGet (chunks : List String) : List Int → Except String (List String)
  | [] => .ok []
  | i :: is =>
    match pyGet chunks i with
    | .error e => .error e
    | .ok s =>
      match mapPyGet chunks is with
      | .error e => .error e
      | .ok rest => .ok (s :: rest)

/-- joinChunks: `"\x5cn\x5cn".join([self.chunks[i] for i in I[0]])` (agent.py 415). -/
def joinChunks (chunks : List String) (idxs : List Int) : Except String String :=
  match mapPyGet chunks idxs with
  | .error e => .error e
  | .ok ss => .ok (String.intercalate "\n\n" ss)

/-! ### Document chunker (agent.py 182-220) -/

/-- isPySpace: the whitespace set stripped by Python str.strip(). -/
def isPySpace (c : Char) : Bool :=
  c = ' ' || c = '\t' || c = '\n' || c = '\r' || c = '\x0b' || c = '\x0c'

/-- pyStrip: Python str.strip() on a character list. -/
def pyStrip (s : List Char) : List Char :=
  ((s.dropWhile isPySpace).reverse.dropWhile isPySpace).reverse

/-- consHead: prepend a character to the first piece of a split result. -/
def consHead (c : Char) : List (List Char) → List (List Char)
  | [] => [[c]]
  | p :: ps => (c :: p) :: ps

/-- pySplit2: Python `text.split("\x5cn\x5cn")`: scan left to right, cutting at
each non-overlapping occurrence of two consecutive newline characters. -/
def pySplit2 : List Char → List (List Char)
  | [] => [[]]
  | '\n' :: '\n' :: rest => [] :: pySplit2 rest
  | c :: rest => consHead c (pySplit2 rest)

/-- create_chunks_of: the chunking mechanism of create_chunks (agent.py
213-217): split the source text on blank-line separators, strip each section,
and keep the non-empty (truthy) ones. -/
def create_chunks_of (text : List Char) : List (List Char) :=
  ((pySplit2 text).map pyStrip).filter (fun x => !x.isEmpty)

/-- insuranceInfo: the hardcoded source document of create_chunks (agent.py 184-210). -/
def insuranceInfo : String :=
  "\n            Blue Shield Platinum 90 PPO\n            Effective: Jan 1, 2025 | Type: PPO | Region: California\n\n            Overview\n            High-coverage PPO plan with low out-of-pocket costs and broad provider access.\n\n            Key Benefits\n            Premium: $8,400 individual / $22,680 family (4 members).\n            Deductible: $0 in-network / $2,000 individual out-of-network.\n            Out-of-Pocket Max: $3,500 individual / $7,000 family (in-network).\n            Copays:\n            Primary Care: $15 / Specialist: $30 / ER: $150 (in-network).\n            Rx: $5 generic / $25 brand / 10% specialty (max $250).\n            Coinsurance: 10% in-network / 40% out-of-network.\n\n            Coverage Examples\n            Having a Baby: $15,000 total → $1,500 in-network / $6,000 out-of-network.\n            Diabetes Care: $5,000/year → $300 in-network / $2,200 out-of-network.\n\n            Extras\n            Preventive care: Free in-network.\n            Telehealth: $10/visit.\n            Network: 60,000+ providers (synthetic).\n            Synthetic Stats\n            Members: 35,000 | Claims: $150M/year | Loss Ratio: 85%.\n        "

/-- create_chunks: the chunker applied to the hardcoded document. -/
def create_chunks : List (List Char) := create_chunks_of insuranceInfo.data

/-- Slices text cs: the pieces `cs` occur in `text` in order, as contiguous
non-overlapping slices (each piece is a contiguous substring, pieces appear
left to right without overlap). -/
inductive Slices : List Char → List (List Char) → Prop where
  | nil : ∀ t, Slices t []
  | cons : ∀ (pre c rest : List Char) (cs : List (List Char)),
      Slices rest cs → Slices (pre ++ c ++ rest) (c :: cs)

/-! ### The orchestrator (MistralAgent.run, agent.py 392-438) -/

/-- Env: the external oracles run consults: the sha256 digest, the embedding
endpoint, the tool-enabled chat completion, and the tool-free chat
completion. -/
structure Env where
  sha256 : String → String
  embed : String → List Int
  chat1 : List Message → ModelResponse
  chat2 : List Message → String

/-- AgentState: the mutable agent fields run touches (use_rag is True). -/
structure AgentState where
  previous_messages : List String
  patient_data : Option PatientSnapshot
  chunks : List String
  emb : List (List Int)

/-- Call: one observable external call made during a turn, in order. -/
inductive Call where
  | cacheGet (key : String)
  | embedCall (text : String)
  | chatWithTools (messages : List Message)
  | chatNoTools (messages : List Message)
  | cacheSet (key : String) (value : String) (ttl : Nat)
deriving DecidableEq

/-- RunResult: the outcome of one turn: the returned answer (or the escaped
exception), the successor agent state, the successor cache, and the ordered
trace of external calls. -/
structure RunResult where
  out : Except String String
  state : AgentState
  cache : CacheState
  calls : List Call

/-- run (agent.py 392-438): append the question to previous_messages, check
the cache (returning the cached text on a hit), embed the question, search
the index for k=2 chunks, join them, assemble the prompt, make the
tool-enabled call, execute requested tools, make the tool-free call, store
the answer in the cache, and return it. -/
def run (env : Env) (st : AgentState) (c : CacheState) (t : Nat)
    (user_message : String) : RunResult :=
  match check_cache env.sha256 c t user_message with
  | some cached =>
    ⟨.ok cached, { st with previous_messages := st.previous_messages ++ [user_message] }, c,
      [Call.cacheGet (env.sha256 user_message)]⟩
  | none =>
    match joinChunks st.chunks (searchIndex st.emb (env.embed user_message) 2) with
    | .error e =>
      ⟨.error e, { st with previous_messages := st.previous_messages ++ [user_message] }, c,
        [Call.cacheGet (env.sha256 user_message), Call.embedCall user_message]⟩
    | .ok retrieved_chunks =>
      match generate_prompt st.patient_data (st.previous_messages ++ [user_message])
          user_message (some retrieved_chunks) with
      | .error e =>
        ⟨.error e, { st with previous_messages := st.previous_messages ++ [user_message] }, c,
          [Call.cacheGet (env.sha256 user_message), Call.embedCall user_message]⟩
      | .ok prompt =>
        match run_mistral_tools st.patient_data
            [Message.system SYSTEM_PROMPT, Message.user prompt]
            (env.chat1 [Message.system SYSTEM_PROMPT, Message.user prompt]) with
        | .error e =>
          ⟨.error e, { st with previous_messages := st.previous_messages ++ [user_message] }, c,
            [Call.cacheGet (env.sha256 user_message), Call.embedCall user_message,
             Call.chatWithTools [Message.system SYSTEM_PROMPT, Message.user prompt]]⟩
        | .ok messages2 =>
          ⟨.ok (env.chat2 messages2),
            { st with previous_messages := st.previous_messages ++ [user_message] },
            store_in_cache env.sha256 c t user_message (env.chat2 messages2),
            [Call.cacheGet (env.sha256 user_message), Call.embedCall user_message,
             Call.chatWithTools [Message.system SYSTEM_PROMPT, Message.user prompt],
             Call.chatNoTools messages2,
             Call.cacheSet (env.sha256 user_message) (env.chat2 messages2) 3600]⟩

/-! ### Concrete fixtures used by witnesses and counterexamples -/

/-- snapW: a loaded snapshot with every key absent. -/
def snapW : PatientSnapshot := ⟨none, none, none, none, none, none, none, none, none, none⟩

/-- envPlain: an environment whose model makes no tool calls. -/
def envPlain : Env := ⟨fun s => s, fun _ => [0], fun _ => ⟨[], ""⟩, fun _ => "ans"⟩

/-- envTools: an environment whose model requests one allergy tool call. -/
def envTools : Env :=
  ⟨fun s => s, fun _ => [0],
   fun _ => ⟨[⟨"id1", "retrieve_allergy_info", []⟩], "c"⟩,
   fun _ => "final answer"⟩

/-- envBogus: an environment whose model requests a tool name that is not in
the registry. -/
def envBogus : Env :=
  ⟨fun s => s, fun _ => [0], fun _ => ⟨[⟨"id1", "bogus_tool", []⟩], ""⟩, fun _ => "ans"⟩

/-- stTools: an agent state with a loaded (all-absent) snapshot, two chunks
and two co-indexed embedding rows. -/
def stTools : AgentState := ⟨[], some snapW, ["cA", "cB"], [[0], [1]]⟩

/-- stC8: like stTools but with three prior questions, the oldest of which
contains the marker character that occurs nowhere else. -/
def stC8 : AgentState := ⟨["a!", "b", "c"], some snapW, ["cA", "cB"], [[0], [1]]⟩

/-- stNone: an agent state on which set_patient_data was never called. -/
def stNone : AgentState := ⟨[], none, ["cA", "cB"], [[0], [1]]⟩

/-- pW4: the prompt run assembles for question "hi" from stTools. -/
def pW4 : String :=
  (generate_prompt (some snapW) ["hi"] "hi" (some ("cA" ++ "\n\n" ++ "cB"))).toOption.getD ""

/-- pC8: the prompt run assembles for question "d" from stC8. -/
def pC8 : String :=
  (generate_prompt (some snapW) ["a!", "b", "c", "d"] "d" (some ("cA" ++ "\n\n" ++ "cB"))).toOption.getD ""

/-- cacheHitW: a cache holding an unexpired entry for key "q". -/
def cacheHitW : CacheState := [("q", "a", 3600)]

/-! ### Helper lemmas -/

/-- Slices is stable under extending the text on the left. -/
theorem slices_prepend (pre t : List Char) (cs : List (List Char))
    (h : Slices t cs) : Slices (pre ++ t) cs := by
  cases h with
  | nil => exact Slices.nil _
  | cons pre2 c rest cs2 hrest =>
    have h2 := Slices.cons (pre ++ pre2) c rest cs2 hrest
    simpa [List.append_assoc] using h2

/-- pyStrip returns a contiguous slice of its input: the input decomposes as
leading whitespace, the stripped core, and trailing whitespace. -/
theorem pyStrip_decomp (s : List Char) : ∃ a b, s = a ++ pyStrip s ++ b := by
  refine ⟨s.takeWhile isPySpace,
    ((s.dropWhile isPySpace).reverse.takeWhile isPySpace).reverse, ?_⟩
  conv_lhs => rw [← List.takeWhile_append_dropWhile (p := isPySpace) (l := s)]
  rw [List.append_assoc]
  congr 1
  have hd : s.dropWhile isPySpace = (s.dropWhile isPySpace).reverse.reverse :=
    (List.reverse_reverse _).symm
  conv_lhs => rw [hd]
  conv_lhs =>
    rw [← List.takeWhile_append_dropWhile (p := isPySpace)
      (l := (s.dropWhile isPySpace).reverse)]
  rw [List.reverse_append]
  rfl

/-- Mapping pyStrip over the pieces and dropping the empty ones preserves the
contiguous-slices relation. -/
theorem slices_map_strip_filter :
    ∀ (ps : List (List Char)) (t : List Char), Slices t ps →
      Slices t ((ps.map pyStrip).filter (fun x => !x.isEmpty)) := by
  intro ps
  induction ps with
  | nil => intro t _; exact Slices.nil _
  | cons p ps ih =>
    intro t h
    cases h with
    | cons pre c rest cs hrest =>
      by_cases hemp : (pyStrip p).isEmpty = true
      · have heq : ((p :: ps).map pyStrip).filter (fun x => !x.isEmpty)
            = (ps.map pyStrip).filter (fun x => !x.isEmpty) := by
          simp [List.filter, hemp]
        rw [heq]
        have h1 := slices_prepend (pre ++ p) rest _ (ih rest hrest)
        simpa [List.append_assoc] using h1
      · have heq : ((p :: ps).map pyStrip).filter (fun x => !x.isEmpty)
            = pyStrip p :: (ps.map pyStrip).filter (fun x => !x.isEmpty) := by
          simp [List.filter, hemp]
        rw [heq]
        obtain ⟨a, b, hab⟩ := pyStrip_decomp p
        have h1 := slices_prepend b rest _ (ih rest hrest)
        have h2 := Slices.cons (pre ++ a) (pyStrip p) (b ++ rest) _ h1
        have htext : pre ++ p ++ rest = pre ++ (a ++ (pyStrip p ++ (b ++ rest))) := by
          conv_lhs => rw [hab]
          simp [List.append_assoc]
        rw [htext]
        simpa [List.append_assoc] using h2

/-- The split decomposes its input: the first piece is a literal prefix and
the remaining pieces are contiguous slices of the rest. -/
theorem pySplit2_decomp :
    ∀ text : List Char, ∃ p ps rest,
      pySplit2 text = p :: ps ∧ text = p ++ rest ∧ Slices rest ps := by
  intro text
  induction text using pySplit2.induct with
  | case1 =>
    exact ⟨[], [], [], rfl, rfl, Slices.nil _⟩
  | case2 rest ih =>
    obtain ⟨p, ps, r, hsplit, hdecomp, hslices⟩ := ih
    refine ⟨[], pySplit2 rest, '\n' :: '\n' :: rest, ?_, rfl, ?_⟩
    · simp [pySplit2]
    · rw [hsplit]
      have h1 : Slices (p ++ r) (p :: ps) := by
        have := Slices.cons [] p r ps hslices
        simpa using this
      rw [← hdecomp] at h1
      exact slices_prepend ['\n', '\n'] rest _ h1
  | case3 c rest hside ih =>
    obtain ⟨p, ps, r, hsplit, hdecomp, hslices⟩ := ih
    refine ⟨c :: p, ps, r, ?_, ?_, hslices⟩
    · rw [pySplit2.eq_3 c rest hside, hsplit]
      rfl
    · rw [hdecomp]
      rfl

/-- The pieces produced by pySplit2 are contiguous non-overlapping in-order
slices of the input. -/
theorem slices_pySplit2 (text : List Char) : Slices text (pySplit2 text) := by
  obtain ⟨p, ps, rest, hsplit, hdecomp, hslices⟩ := pySplit2_decomp text
  rw [hsplit, hdecomp]
  have := Slices.cons [] p rest ps hslices
  simpa using this

/-- Membership in an insertion step. -/
theorem mem_insertBy (le : Nat → Nat → Bool) (x : Nat) :
    ∀ (l : List Nat) (y : Nat), y ∈ insertBy le x l → y = x ∨ y ∈ l := by
  intro l
  induction l with
  | nil => intro y hy; simp [insertBy] at hy; exact Or.inl hy
  | cons z zs ih =>
    intro y hy
    by_cases hle : le x z = true
    · simp [insertBy, hle] at hy
      rcases hy with h | h | h
      · exact Or.inl h
      · exact Or.inr (by simp [h])
      · exact Or.inr (by simp [h])
    · simp [insertBy, hle] at hy
      rcases hy with h | h
      · exact Or.inr (by simp [h])
      · rcases ih y h with h2 | h2
        · exact Or.inl h2
        · exact Or.inr (by simp [h2])

/-- Membership in an insertion sort result implies membership in the input. -/
theorem mem_sortNatBy (le : Nat → Nat → Bool) :
    ∀ (l : List Nat) (y : Nat), y ∈ sortNatBy le l → y ∈ l := by
  intro l
  induction l with
  | nil => intro y hy; exact hy
  | cons z zs ih =>
    intro y hy
    rcases mem_insertBy le z (sortNatBy le zs) y hy with h | h
    · simp [h]
    · exact List.mem_cons_of_mem _ (ih y h)

/-- Insertion preserves length plus one. -/
theorem length_insertBy (le : Nat → Nat → Bool) (x : Nat) :
    ∀ l : List Nat, (insertBy le x l).length = l.length + 1 := by
  intro l
  induction l with
  | nil => rfl
  | cons z zs ih =>
    by_cases hle : le x z = true
    · simp [insertBy, hle]
    · simp [insertBy, hle, ih]

/-- Insertion sort preserves length. -/
theorem length_sortNatBy (le : Nat → Nat → Bool) :
    ∀ l : List Nat, (sortNatBy le l).length = l.length := by
  intro l
  induction l with
  | nil => rfl
  | cons z zs ih => simp [sortNatBy, length_insertBy, ih]

/-- Shape of a successful tool-execution loop: one result per request, in
order, each a tool message tagged with the originating call id and name. -/
theorem execToolCalls_shape
    (ntf : String → Option (List (String × String) → Except String String)) :
    ∀ (tcs : List ToolCall) (trs : List Message),
      execToolCalls ntf tcs = .ok trs →
      trs.length = tcs.length ∧
        ∀ (i : Nat) (tc : ToolCall), tcs.get? i = some tc →
          ∃ content, trs.get? i = some (Message.tool tc.name content tc.id) := by
  intro tcs
  induction tcs with
  | nil =>
    intro trs h
    simp [execToolCalls] at h
    subst h
    exact ⟨rfl, by intro i tc h2; simp at h2⟩
  | cons tc rest ih =>
    intro trs h
    simp only [execToolCalls] at h
    split at h
    · exact absurd h (by simp)
    · rename_i f hf
      split at h
      · exact absurd h (by simp)
      · rename_i result hr
        split at h
        · exact absurd h (by simp)
        · rename_i ms hrec
          injection h with h
          subst h
          obtain ⟨hlen, hshape⟩ := ih ms hrec
          constructor
          · simp [hlen]
          · intro i tc2 h2
            cases i with
            | zero =>
              simp at h2
              subst h2
              exact ⟨result, rfl⟩
            | succ j =>
              simp only [List.get?_cons_succ] at h2 ⊢
              exact hshape j tc2 h2

/-- pySplit2 leaves a separator-free text in one piece. -/
theorem pySplit2_replicate_a (n : Nat) :
    pySplit2 (List.replicate n 'a') = [List.replicate n 'a'] := by
  induction n with
  | zero => rfl
  | succ m ih =>
    rw [List.replicate_succ]
    rw [pySplit2.eq_3 'a' (List.replicate m 'a')
      (by intro r hc _; exact absurd hc (by decide))]
    rw [ih]
    rfl

/-- dropWhile of the Python whitespace test leaves a run of letters alone. -/
theorem dropWhile_replicate_a (n : Nat) :
    (List.replicate n 'a').dropWhile isPySpace = List.replicate n 'a' := by
  cases n with
  | zero => rfl
  | succ m =>
    rw [List.replicate_succ, List.dropWhile_cons]
    have h : isPySpace 'a' = false := by decide
    rw [h]
    simp [List.replicate_succ]

/-- pyStrip leaves a run of letters alone. -/
theorem pyStrip_replicate_a (n : Nat) :
    pyStrip (List.replicate n 'a') = List.replicate n 'a' := by
  unfold pyStrip
  rw [dropWhile_replicate_a, List.reverse_replicate, dropWhile_replicate_a,
    List.reverse_replicate]

/-- The chunker keeps a nonempty separator-free text as one chunk. -/
theorem create_chunks_of_replicate_a (n : Nat) :
    create_chunks_of (List.replicate (n + 1) 'a') = [List.replicate (n + 1) 'a'] := by
  unfold create_chunks_of
  rw [pySplit2_replicate_a]
  simp only [List.map_cons, List.map_nil, pyStrip_replicate_a]
  simp [List.filter, List.replicate_succ]

/-- C1 counterexample: the claim says store followed immediately by lookup
returns the answer verbatim for every answer; for the empty answer the code
stores empty bytes which the lookup's truthiness test treats as a miss, so
the lookup returns absent instead. -/
theorem c1_counterexample :
    check_cache (fun s => s) (store_in_cache (fun s => s) [] 0 "q" "") 0 "q" = none
    ∧ (none : Option String) ≠ some "" := by
  exact ⟨rfl, by simp⟩

/-- C1 (amended): for every nonempty answer, store followed immediately by
lookup under the same question returns the answer verbatim; the write
unconditionally overwrites a prior entry under the same key; the key is the
(abstracted) sha256 digest of the raw question text; the TTL is fixed at
3600 seconds, and lookups at or after expiry return absent. Storing the
empty answer is the one exception: the lookup's truthiness test turns it
into a miss. -/
theorem c1_cache_round_trip (h : String → String) (c : CacheState) (t : Nat)
    (q a a0 : String) (ha : a ≠ "") :
    check_cache h (store_in_cache h c t q a) t q = some a
    ∧ (∀ t2, t + 3600 ≤ t2 → check_cache h (store_in_cache h c t q a) t2 q = none)
    ∧ check_cache h (store_in_cache h (store_in_cache h c t q a0) t q a) t q = some a
    ∧ store_in_cache h c t q a = cacheSet c (h q) a (t + 3600) := by
  have hlt : t < t + 3600 := by omega
  refine ⟨?_, ?_, ?_, rfl⟩
  · simp [check_cache, cacheGetAt, store_in_cache, cacheSet, List.find?, hlt, ha]
  · intro t2 ht2
    have hn : ¬ (t2 < t + 3600) := by omega
    simp [check_cache, cacheGetAt, store_in_cache, cacheSet, List.find?, hn]
  · simp [check_cache, cacheGetAt, store_in_cache, cacheSet, List.find?, hlt, ha]

/-- C1 witness: the round trip at a concrete nonempty answer. -/
theorem c1_witness :
    check_cache (fun s => s) (store_in_cache (fun s => s) [] 0 "q" "a") 0 "q" = some "a" :=
  (c1_cache_round_trip (fun s => s) [] 0 "q" "a" "x" (by decide)).1

/-- C2: for every loaded PatientSnapshot with no allergies key, the allergy
tool returns exactly the fixed sentinel string and never raises, regardless
of the arguments supplied to it. -/
theorem c2_allergy_sentinel (snap : PatientSnapshot) (kwargs : List (String × String))
    (hall : snap.allergies = none) :
    retrieve_allergy_info (some snap) kwargs
      = .ok "No allergy information available for this patient." := by
  simp [retrieve_allergy_info, hall]

/-- C2 witness: the sentinel at a concrete snapshot and concrete (ignored)
keyword arguments. -/
theorem c2_witness :
    retrieve_allergy_info (some snapW) [("topic", "allergies")]
      = .ok "No allergy information available for this patient." :=
  c2_allergy_sentinel snapW [("topic", "allergies")] rfl

/-- C9 counterexample: the claim says every chunk is at most chunk_size
characters for a fixed configuration constant; no such constant exists — for
any candidate bound, a separator-free source text of length bound + 1 is
returned as a single chunk exceeding it. -/
theorem c9_counterexample :
    ¬ ∃ bound : Nat, ∀ (text : List Char), ∀ chunk ∈ create_chunks_of text,
        chunk.length ≤ bound := by
  rintro ⟨bound, hb⟩
  have hm : List.replicate (bound + 1) 'a'
      ∈ create_chunks_of (List.replicate (bound + 1) 'a') := by
    rw [create_chunks_of_replicate_a]
    exact List.mem_singleton.mpr rfl
  have hlen := hb _ _ hm
  rw [List.length_replicate] at hlen
  omega

/-- C9 (amended): for every source text the chunker produces an ordered
sequence of chunks by contiguous non-overlapping slicing of the text
(splitting at blank-line separators, stripping each section, and dropping
empty sections); it is deterministic in the source text; but no fixed
chunk-size bound exists. -/
theorem c9_chunker_slices (text : List Char) :
    Slices text (create_chunks_of text) :=
  slices_map_strip_filter (pySplit2 text) text (slices_pySplit2 text)

/-- C3 counterexample: with one stored row and k = 2, the search pads with
label -1, which is outside the valid range, and the chunk selection then
resolves -1 by Python negative indexing to the last chunk instead of
failing. -/
theorem c3_counterexample :
    (-1 : Int) ∈ searchIndex [[(0 : Int)]] [0] 2
    ∧ ¬ (0 ≤ (-1 : Int) ∧ (-1 : Int) < ((["c"] : List String).length : Int))
    ∧ joinChunks ["c"] (searchIndex [[(0 : Int)]] [0] 2) = .ok "c\n\nc" := by
  refine ⟨by decide, by decide, ?_⟩
  rfl

/-- C3 (amended): whenever the index holds at least k rows (and the chunk
and embedding sequences are co-indexed), every label returned by the search
lies in the valid range; with fewer than k rows the search pads with -1 and
the chunk selection resolves it via negative indexing without an error. -/
theorem c3_search_in_range (emb : List (List Int)) (chunks : List String)
    (q : List Int) (k : Nat) (hco : emb.length = chunks.length)
    (hk : k ≤ emb.length) :
    ∀ i ∈ searchIndex emb q k, 0 ≤ i ∧ i < (chunks.length : Int) := by
  intro i hi
  unfold searchIndex at hi
  have hordlen : (sortNatBy (distLe q emb) (List.range emb.length)).length
      = emb.length := by
    rw [length_sortNatBy, List.length_range]
  have htake : ((sortNatBy (distLe q emb) (List.range emb.length)).take k).length = k := by
    rw [List.length_take, hordlen, Nat.min_eq_left hk]
  rw [htake, Nat.sub_self, List.replicate_zero, List.append_nil] at hi
  obtain ⟨m, hm, hcast⟩ := List.mem_map.mp hi
  have hmo : m ∈ sortNatBy (distLe q emb) (List.range emb.length) :=
    (List.take_sublist k _).subset hm
  have hmr : m ∈ List.range emb.length := mem_sortNatBy _ _ m hmo
  have hmlt : m < emb.length := List.mem_range.mp hmr
  subst hcast
  constructor
  · exact Int.natCast_nonneg m
  · rw [← hco]
    rw [Int.ofNat_eq_natCast]
    exact_mod_cast hmlt

/-- C3 witness: a concrete in-range label from a two-row index. -/
theorem c3_witness :
    0 ≤ (0 : Int) ∧ (0 : Int) < ((["cA", "cB"] : List String).length : Int) :=
  c3_search_in_range [[0], [1]] ["cA", "cB"] [0] 2 rfl (by decide) 0 (by decide)

/-- C5: on a cache hit, run returns the cached text verbatim, leaves the
cache unchanged, and the turn's only external call is the cache lookup — no
embedding call, no retrieval, no model call, and no cache write. -/
theorem c5_cache_hit_short_circuit (env : Env) (st : AgentState) (c : CacheState)
    (t : Nat) (q r : String) (hhit : check_cache env.sha256 c t q = some r) :
    (run env st c t q).out = .ok r
    ∧ (run env st c t q).calls = [Call.cacheGet (env.sha256 q)]
    ∧ (run env st c t q).cache = c := by
  unfold run
  rw [hhit]
  exact ⟨rfl, rfl, rfl⟩

/-- C5 witness: a concrete cache hit. -/
theorem c5_witness :
    (run envPlain stTools cacheHitW 0 "q").out = .ok "a"
    ∧ (run envPlain stTools cacheHitW 0 "q").calls = [Call.cacheGet "q"] := by
  have h := c5_cache_hit_short_circuit envPlain stTools cacheHitW 0 "q" "a" rfl
  exact ⟨h.1, h.2.1⟩

/-- C6 counterexample: the claim says an unregistered tool name is handled
as an internal failure producing a generic response rather than an unhandled
exception; in the code the dict lookup raises a KeyError that nothing
catches, so the turn's run call itself ends with the escaped exception. -/
theorem c6_counterexample :
    (run envBogus stTools [] 0 "q").out = .error ("KeyError: " ++ "bogus_tool") := by
  rfl

/-- C6 (amended): if the model requests a tool call whose name is not in the
registered mapping, the tool-execution loop raises an uncaught KeyError that
escapes run_mistral_tools (and hence the turn); there is no UnknownTool
recovery producing a generic failure response. -/
theorem c6_unknown_tool_keyerror (pd : Option PatientSnapshot) (ms : List Message)
    (cid nm : String) (args : List (String × String)) (rest : List ToolCall)
    (content : String) (hnm : names_to_functions pd nm = none) :
    run_mistral_tools pd ms ⟨⟨cid, nm, args⟩ :: rest, content⟩
      = .error ("KeyError: " ++ nm) := by
  simp [run_mistral_tools, execToolCalls, hnm]

/-- C6 witness: a concrete unregistered tool name. -/
theorem c6_witness :
    run_mistral_tools none [] ⟨[⟨"call1", "bogus", []⟩], ""⟩
      = .error ("KeyError: " ++ "bogus") :=
  c6_unknown_tool_keyerror none [] "call1" "bogus" [] [] "" rfl

/-- C7 counterexample: the claim says the window never holds more than the
last 3 questions; after one turn on a window that already holds 3, the code
holds 4 — nothing is ever dropped. -/
theorem c7_counterexample :
    (run envPlain stC8 [] 0 "d").state.previous_messages = ["a!", "b", "c", "d"]
    ∧ ¬ ((["a!", "b", "c", "d"] : List String).length ≤ 3) := by
  exact ⟨rfl, by decide⟩

/-- C7 (amended): every turn appends the question to previous_messages and
nothing is ever dropped — the stored sequence grows without bound; only the
last three entries are consulted at prompt-assembly time. -/
theorem c7_window_append (env : Env) (st : AgentState) (c : CacheState) (t : Nat)
    (q : String) :
    (run env st c t q).state.previous_messages = st.previous_messages ++ [q]
    ∧ ∀ l : List String, (lastN 3 l).length ≤ 3 := by
  constructor
  · unfold run
    split
    · rfl
    · split
      · rfl
      · split
        · rfl
        · split
          · rfl
          · rfl
  · intro l
    unfold lastN
    rw [List.length_drop]
    omega

/-- C10: every tool handler requires a loaded PatientSnapshot: with
patient_data still None, each of the five handlers raises (a TypeError from
the membership test, or an AttributeError from the attribute access) instead
of returning a sentinel, and a non-cache-hit run fails at prompt assembly
with the same AttributeError. -/
theorem c10_unloaded_snapshot :
    (∀ kw, retrieve_allergy_info none kw = .error typeErrNone)
    ∧ (∀ kw, retrieve_diagnostic_report_info none kw = .error typeErrNone)
    ∧ (∀ kw, retrieve_condition_info none kw = .error typeErrNone)
    ∧ (∀ kw, retrieve_relevant_info_for_ICD_code none kw = .error typeErrNone)
    ∧ (∀ kw, retrieve_patient_info none kw = .error attrErrNone)
    ∧ (∀ (env : Env) (st : AgentState) (c : CacheState) (t : Nat) (q r : String),
        st.patient_data = none →
        check_cache env.sha256 c t q = none →
        joinChunks st.chunks (searchIndex st.emb (env.embed q) 2) = .ok r →
        (run env st c t q).out = .error attrErrNone) := by
  refine ⟨fun kw => rfl, fun kw => rfl, fun kw => rfl, fun kw => rfl, fun kw => rfl, ?_⟩
  intro env st c t q r hpd hmiss hjoin
  unfold run
  rw [hmiss, hjoin, hpd]
  rfl

/-- C10 witness: concrete handler failures and a concrete failing turn. -/
theorem c10_witness :
    retrieve_allergy_info none [] = .error typeErrNone
    ∧ retrieve_patient_info none [] = .error attrErrNone
    ∧ (run envPlain stNone [] 0 "q").out = .error attrErrNone := by
  refine ⟨c10_unloaded_snapshot.1 [], c10_unloaded_snapshot.2.2.2.2.1 [], ?_⟩
  exact c10_unloaded_snapshot.2.2.2.2.2 envPlain stNone [] 0 "q" ("cA" ++ "\n\n" ++ "cB")
    rfl rfl rfl

set_option maxRecDepth 16384 in
/-- C8 counterexample: the claim says the prompt contains the last three
prior questions (those preceding the current one); with priors
["a!", "b", "c"] and current question "d" the code consults the last three
entries after appending "d", so the assembled prompt omits the prior
question "a!" entirely (its marker character occurs nowhere in the prompt)
and instead includes the current question in that section. -/
theorem c8_counterexample :
    (run envPlain stC8 [] 0 "d").calls.take 3 =
      [Call.cacheGet "d", Call.embedCall "d",
       Call.chatWithTools [Message.system SYSTEM_PROMPT, Message.user pC8]]
    ∧ ¬ ('!' ∈ pC8.data)
    ∧ '!' ∈ ("a!" : String).data
    ∧ stC8.previous_messages = ["a!", "b", "c"] := by
  refine ⟨rfl, by decide, by decide, rfl⟩

/-- C8 (amended): for every non-cached question, the assembled grounding
prompt contains, in fixed order: the full patient demographic/insurance
summary, the retrieved chunk text (or the no-insurance sentinel when it is
empty), the last three entries of the window after the current question has
been appended (so including the current question, not the three preceding
it; the no-previous-messages sentinel branch exists but is unreachable here
since the window always contains the current question), then the literal
user query and an Answer cue; and it is sent as the sole user-role message
alongside the fixed system-role message in the first model call. -/
theorem c8_prompt_structure (env : Env) (st : AgentState) (c : CacheState) (t : Nat)
    (q : String) (snap : PatientSnapshot) (r : String)
    (hpd : st.patient_data = some snap)
    (hmiss : check_cache env.sha256 c t q = none)
    (hjoin : joinChunks st.chunks (searchIndex st.emb (env.embed q) 2) = .ok r) :
    (run env st c t q).calls.take 3 =
      [Call.cacheGet (env.sha256 q), Call.embedCall q,
       Call.chatWithTools [Message.system SYSTEM_PROMPT, Message.user
         ("\n            Context information is below.\n            ---------------------\n            Patient Information: "
           ++ patient_info_block snap
           ++ "\n            Insurance Information: " ++ insuranceSection (some r)
           ++ "\n            Previous Messages: " ++ prevSection (st.previous_messages ++ [q])
           ++ "\n            ---------------------\n            Given the context information, answer the query.\n            Query: "
           ++ q ++ "\n            Answer:\n        ")]] := by
  unfold run
  rw [hmiss, hjoin, hpd]
  show (match run_mistral_tools (some snap) _ _ with
    | .error _ => _
    | .ok _ => _ : RunResult).calls.take 3 = _
  split
  · rfl
  · rfl

/-- C8 witness: the prompt structure at a concrete turn. -/
theorem c8_witness :
    (run envPlain stC8 [] 0 "d").calls.take 3 =
      [Call.cacheGet "d", Call.embedCall "d",
       Call.chatWithTools [Message.system SYSTEM_PROMPT, Message.user
         ("\n            Context information is below.\n            ---------------------\n            Patient Information: "
           ++ patient_info_block snapW
           ++ "\n            Insurance Information: " ++ insuranceSection (some ("cA" ++ "\n\n" ++ "cB"))
           ++ "\n            Previous Messages: " ++ prevSection (["a!", "b", "c"] ++ ["d"])
           ++ "\n            ---------------------\n            Given the context information, answer the query.\n            Query: "
           ++ "d" ++ "\n            Answer:\n        ")]] := by
  exact c8_prompt_structure envPlain stC8 [] 0 "d" snapW ("cA" ++ "\n\n" ++ "cB") rfl rfl rfl

/-- C4: for every first-model-call response carrying tool-call requests
whose names all resolve and whose handlers all succeed, the orchestrator
appends the assistant tool-call message and then exactly one tool-result
message per request, in the order the calls were returned, each tagged with
its originating call's id, all before the second model call; the second call
receives the full transcript and — being the chatNoTools oracle — no tool
catalog, and its answer is what gets cached. -/
theorem c4_tool_round_trip (env : Env) (st : AgentState) (c : CacheState) (t : Nat)
    (q : String)
    (hmiss : check_cache env.sha256 c t q = none)
    (r : String)
    (hjoin : joinChunks st.chunks (searchIndex st.emb (env.embed q) 2) = .ok r)
    (p : String)
    (hp : generate_prompt st.patient_data (st.previous_messages ++ [q]) q (some r) = .ok p)
    (tcs : List ToolCall)
    (htcs : (env.chat1 [Message.system SYSTEM_PROMPT, Message.user p]).toolCalls = tcs)
    (hne : tcs ≠ [])
    (trs : List Message)
    (hexec : execToolCalls (names_to_functions st.patient_data) tcs = .ok trs) :
    (run env st c t q).calls =
      [Call.cacheGet (env.sha256 q), Call.embedCall q,
       Call.chatWithTools [Message.system SYSTEM_PROMPT, Message.user p],
       Call.chatNoTools ([Message.system SYSTEM_PROMPT, Message.user p]
         ++ [Message.assistant (env.chat1 [Message.system SYSTEM_PROMPT, Message.user p]).content tcs]
         ++ trs),
       Call.cacheSet (env.sha256 q)
         (env.chat2 ([Message.system SYSTEM_PROMPT, Message.user p]
           ++ [Message.assistant (env.chat1 [Message.system SYSTEM_PROMPT, Message.user p]).content tcs]
           ++ trs)) 3600]
    ∧ trs.length = tcs.length
    ∧ ∀ (i : Nat) (tc : ToolCall), tcs.get? i = some tc →
        ∃ content, trs.get? i = some (Message.tool tc.name content tc.id) := by
  refine ⟨?_, (execToolCalls_shape _ tcs trs hexec).1, (execToolCalls_shape _ tcs trs hexec).2⟩
  have hrmt : run_mistral_tools st.patient_data
      [Message.system SYSTEM_PROMPT, Message.user p]
      (env.chat1 [Message.system SYSTEM_PROMPT, Message.user p])
      = .ok ([Message.system SYSTEM_PROMPT, Message.user p]
          ++ [Message.assistant (env.chat1 [Message.system SYSTEM_PROMPT, Message.user p]).content tcs]
          ++ trs) := by
    have hempty : (env.chat1 [Message.system SYSTEM_PROMPT, Message.user p]).toolCalls.isEmpty = false := by
      rw [htcs]
      exact List.isEmpty_eq_false.mpr hne
    rw [run_mistral_tools, hempty]
    simp only [Bool.false_eq_true, if_false]
    rw [htcs, hexec]
  unfold run
  simp only [hmiss, hjoin, hp, hrmt]

set_option maxRecDepth 16384 in
/-- C4 witness: a concrete turn whose first model call requests one tool
call; the transcript gains the assistant tool-call message and exactly one
tagged tool-result message before the tool-free second call. -/
theorem c4_witness :
    (run envTools stTools [] 0 "hi").calls =
      [Call.cacheGet "hi", Call.embedCall "hi",
       Call.chatWithTools [Message.system SYSTEM_PROMPT, Message.user pW4],
       Call.chatNoTools ([Message.system SYSTEM_PROMPT, Message.user pW4]
         ++ [Message.assistant "c" [⟨"id1", "retrieve_allergy_info", []⟩]]
         ++ [Message.tool "retrieve_allergy_info"
              "No allergy information available for this patient." "id1"]),
       Call.cacheSet "hi" "final answer" 3600]
    ∧ ([Message.tool "retrieve_allergy_info"
          "No allergy information available for this patient." "id1"] : List Message).length
        = ([⟨"id1", "retrieve_allergy_info", []⟩] : List ToolCall).length := by
  have h := c4_tool_round_trip envTools stTools [] 0 "hi" rfl ("cA" ++ "\n\n" ++ "cB") rfl
    pW4 rfl [⟨"id1", "retrieve_allergy_info", []⟩] rfl (by simp)
    [Message.tool "retrieve_allergy_info"
      "No allergy information available for this patient." "id1"] rfl
  exact ⟨h.1, h.2.1⟩
